import Mathlib

/-!
Verification of the gesture-classification core of the Hand-Gesture-Net
repository (HandTracker component).

Shallow embedding conventions:
* JavaScript numbers are modelled as rationals.  The ambient JS `Math`
  functions used by the source (`Math.sqrt`, `Math.acos`, `Math.atan2`,
  `Math.PI`) are abstracted into a `JsMath` record of rational functions;
  every theorem is quantified over an arbitrary such record, so nothing
  below depends on a particular square-root or arc-cosine model.
* JS arrays indexed with possibly-missing elements are modelled with
  `List` plus `getD`-style total access; the caller contract (21
  landmarks per hand) makes the default value irrelevant on real inputs.
* The mutable refs `gestureHistoryRef` and `smoothedLandmarksRef` of the
  component are modelled as an explicit `TrackState` record threaded
  through the per-frame functions.
-/

/-- A hand landmark: 2D point with an optional depth coordinate,
mirroring the `HandLandmark` interface of the source. -/
structure Landmark where
  x : ℚ
  y : ℚ
  z : Option ℚ := none
deriving DecidableEq, Repr

instance : Inhabited Landmark := ⟨⟨0, 0, none⟩⟩

/-- A detected hand, mirroring the `Hand` interface of the source. -/
structure Hand where
  keypoints : List Landmark
  handedness : String
  score : ℚ
deriving DecidableEq, Repr

/-- Abstraction of the JS `Math` primitives used by the source.  The
classifier and the angle computation are parametric in this record. -/
structure JsMath where
  sqrt : ℚ → ℚ
  acos : ℚ → ℚ
  atan2 : ℚ → ℚ → ℚ
  pi : ℚ

/-- The `handData` payload attached to a gesture result. -/
structure HandData where
  landmarks : List Landmark
  angles : List (List ℚ)
  extendedFingers : List Bool
  handedness : String
deriving DecidableEq, Repr

/-- The result returned by `detectAdvancedGesture`. -/
structure GestureResult where
  gesture : String
  confidence : ℚ
  handData : Option HandData := none
deriving DecidableEq, Repr

/-- The mutable per-component state of the tracker:
`gestureHistoryRef.current` and `smoothedLandmarksRef.current`. -/
structure TrackState where
  gestureHistory : List String
  smoothedLandmarks : List (Option (List Landmark))
deriving DecidableEq, Repr

/-- Total access to a landmark array, `landmarks[i]` under the 21-landmark
caller contract. -/
def getL (landmarks : List Landmark) (i : Nat) : Landmark :=
  landmarks.getD i default

/-- Read of `smoothedLandmarksRef.current[handIndex]`; a JS array slot that
was never assigned reads as `undefined`, here `none`. -/
def getSlot (slots : List (Option (List Landmark))) (i : Nat) :
    Option (List Landmark) :=
  slots.getD i none

/-- Assignment `smoothedLandmarksRef.current[handIndex] = v`; assigning past
the end of a JS array fills the gap with holes (`none`). -/
def setSlot (slots : List (Option (List Landmark))) (i : Nat)
    (v : List Landmark) : List (Option (List Landmark)) :=
  match slots, i with
  | [], 0 => [some v]
  | [], n + 1 => none :: setSlot [] n v
  | _ :: t, 0 => some v :: t
  | h :: t, n + 1 => h :: setSlot t n v

/-- JS truthiness of an optional number: `undefined` and `0` are falsy.
This models the guard `prev.z && landmark.z` in `smoothLandmarks`. -/
def truthy : Option ℚ → Bool
  | none => false
  | some q => decide (q ≠ 0)

/-- One landmark of the exponential-moving-average update performed in the
subsequent-observation branch of `smoothLandmarks` (source lines 324-331):
x and y are always blended as prev*smoothing + current*(1-smoothing); z is
blended only when `prev.z && landmark.z` is truthy, else the current z
passes through. -/
def emaLandmark (smoothing : ℚ) (prev landmark : Landmark) : Landmark :=
  { x := prev.x * smoothing + landmark.x * (1 - smoothing)
    y := prev.y * smoothing + landmark.y * (1 - smoothing)
    z :=
      if truthy prev.z && truthy landmark.z then
        some (prev.z.getD 0 * smoothing + landmark.z.getD 0 * (1 - smoothing))
      else landmark.z }

/-- The indexed map `currentLandmarks.map((landmark, i) => ...)` over the
stored previous array, written as structural recursion: element i of the
result blends `prev[i]` with element i of the current array. -/
def emaList (smoothing : ℚ) (prevList current : List Landmark) :
    List Landmark :=
  match current with
  | [] => []
  | c :: cs => emaLandmark smoothing (prevList.headD default) c ::
      emaList smoothing prevList.tail cs

/-- `smoothLandmarks(currentLandmarks, handIndex)` (source lines 318-335),
with the mutable ref made explicit: returns the smoothed array and the
updated slot state.  First observation for a slot stores and returns the
input unchanged; otherwise the EMA update is applied and persisted. -/
def smoothLandmarks (smoothing : ℚ)
    (slots : List (Option (List Landmark)))
    (currentLandmarks : List Landmark) (handIndex : Nat) :
    List Landmark × List (Option (List Landmark)) :=
  match getSlot slots handIndex with
  | none => (currentLandmarks, setSlot slots handIndex currentLandmarks)
  | some prev =>
      let smoothed := emaList smoothing prev currentLandmarks
      (smoothed, setSlot slots handIndex smoothed)

/-- Finger joint index groups of `calculateFingerAngles`. -/
def fingerJoints : List (List Nat) :=
  [[1, 2, 3, 4], [5, 6, 7, 8], [9, 10, 11, 12], [13, 14, 15, 16],
   [17, 18, 19, 20]]

/-- `calculateFingerAngles` (source lines 337-370): per finger, the angles
at consecutive joint triples, via acos of the normalised 2D dot product,
converted to degrees. -/
def calculateFingerAngles (M : JsMath) (landmarks : List Landmark) :
    List (List ℚ) :=
  fingerJoints.map fun joints =>
    (List.range (joints.length - 2)).map fun i =>
      let p1 := getL landmarks (joints.getD i 0)
      let p2 := getL landmarks (joints.getD (i + 1) 0)
      let p3 := getL landmarks (joints.getD (i + 2) 0)
      let v1x := p1.x - p2.x
      let v1y := p1.y - p2.y
      let v2x := p3.x - p2.x
      let v2y := p3.y - p2.y
      let dot := v1x * v2x + v1y * v2y
      let mag1 := M.sqrt (v1x * v1x + v1y * v1y)
      let mag2 := M.sqrt (v2x * v2x + v2y * v2y)
      M.acos (dot / (mag1 * mag2)) * (180 / M.pi)

/-- `thumbExtended = thumbTip.x > thumbMcp.x + 20` (landmarks 4 and 2). -/
def thumbExtended (landmarks : List Landmark) : Bool :=
  decide ((getL landmarks 4).x > (getL landmarks 2).x + 20)

/-- `indexExtended = indexTip.y < indexMcp.y - 20` (landmarks 8 and 5). -/
def indexExtended (landmarks : List Landmark) : Bool :=
  decide ((getL landmarks 8).y < (getL landmarks 5).y - 20)

/-- `middleExtended = middleTip.y < middleMcp.y - 20` (landmarks 12, 9). -/
def middleExtended (landmarks : List Landmark) : Bool :=
  decide ((getL landmarks 12).y < (getL landmarks 9).y - 20)

/-- `ringExtended = ringTip.y < ringMcp.y - 20` (landmarks 16 and 13). -/
def ringExtended (landmarks : List Landmark) : Bool :=
  decide ((getL landmarks 16).y < (getL landmarks 13).y - 20)

/-- `pinkyExtended = pinkyTip.y < pinkyMcp.y - 20` (landmarks 20, 17). -/
def pinkyExtended (landmarks : List Landmark) : Bool :=
  decide ((getL landmarks 20).y < (getL landmarks 17).y - 20)

/-- The `extendedFingers` array of the source. -/
def extendedFingers (landmarks : List Landmark) : List Bool :=
  [thumbExtended landmarks, indexExtended landmarks,
   middleExtended landmarks, ringExtended landmarks,
   pinkyExtended landmarks]

/-- `extendedCount = extendedFingers.filter(Boolean).length`. -/
def extendedCount (landmarks : List Landmark) : Nat :=
  ((extendedFingers landmarks).filter id).length

/-- The raw per-frame decision table of `detectAdvancedGesture` (source
lines 411-475), before the sensitivity gate: starting from the initial
`gesture = 'Unknown'`, `confidence = 0`, the first matching branch assigns
the label and its confidence.  The square roots feeding the Fist, Open
Hand, Peace Sign and OK Sign branches use the abstract `M.sqrt`; the
`atan2` results computed in the Pointing and Thumbs Up branches are bound
but unused, exactly as in the source. -/
def classifyRaw (M : JsMath) (landmarks : List Landmark) : String × ℚ :=
  let thumbTip := getL landmarks 4
  let indexTip := getL landmarks 8
  let middleTip := getL landmarks 12
  let pinkyTip := getL landmarks 20
  let thumbMcp := getL landmarks 2
  let indexMcp := getL landmarks 5
  let wrist := getL landmarks 0
  if extendedCount landmarks = 0 then
    let compactness := M.sqrt ((indexTip.x - wrist.x) ^ 2 +
      (indexTip.y - wrist.y) ^ 2)
    ("Fist", min 1 ((100 - compactness) / 50))
  else if extendedCount landmarks = 5 then
    let spread := M.sqrt ((thumbTip.x - pinkyTip.x) ^ 2 +
      (thumbTip.y - pinkyTip.y) ^ 2)
    ("Open Hand", min 1 (spread / 200))
  else if indexExtended landmarks && !middleExtended landmarks &&
      !ringExtended landmarks && !pinkyExtended landmarks then
    let _pointingAngle := M.atan2 (indexTip.y - indexMcp.y)
      (indexTip.x - indexMcp.x)
    ("Pointing", if indexExtended landmarks then 0.9 else 0.5)
  else if indexExtended landmarks && middleExtended landmarks &&
      !ringExtended landmarks && !pinkyExtended landmarks then
    let separation := M.sqrt ((indexTip.x - middleTip.x) ^ 2 +
      (indexTip.y - middleTip.y) ^ 2)
    ("Peace Sign", min 1 (separation / 50))
  else if thumbExtended landmarks && !indexExtended landmarks &&
      !middleExtended landmarks && !ringExtended landmarks &&
      !pinkyExtended landmarks then
    let _thumbAngle := M.atan2 (thumbTip.y - thumbMcp.y)
      (thumbTip.x - thumbMcp.x)
    ("Thumbs Up", if thumbExtended landmarks then 0.85 else 0.4)
  else if thumbExtended landmarks && indexExtended landmarks &&
      !middleExtended landmarks && !ringExtended landmarks &&
      !pinkyExtended landmarks then
    let distance := M.sqrt ((thumbTip.x - indexTip.x) ^ 2 +
      (thumbTip.y - indexTip.y) ^ 2)
    if distance < 30 then ("OK Sign", 0.8) else ("Unknown", 0)
  else if indexExtended landmarks && pinkyExtended landmarks &&
      !middleExtended landmarks && !ringExtended landmarks then
    ("Rock Sign", 0.75)
  else if thumbExtended landmarks && pinkyExtended landmarks &&
      !indexExtended landmarks && !middleExtended landmarks &&
      !ringExtended landmarks then
    ("Call Me", 0.7)
  else
    (toString (extendedCount landmarks) ++ " Finger" ++
      (if extendedCount landmarks ≠ 1 then "s" else ""), 0.6)

/-- The sensitivity gate (source lines 477-481): a confidence strictly
below the threshold demotes the pair to `Uncertain` with confidence 0. -/
def applySensitivity (sensitivity : ℚ) (gesture : String)
    (confidence : ℚ) : String × ℚ :=
  if confidence < sensitivity then ("Uncertain", 0) else (gesture, confidence)

/-- The history push of source lines 484-487: append, then drop the oldest
entry once the buffer exceeds 5. -/
def pushHistory (history : List String) (gesture : String) : List String :=
  let h := history ++ [gesture]
  if h.length > 5 then h.tail else h

/-- One step of the `reduce` that builds `gestureCount`: increment the
count of an existing key in place, or append a new key with count 1 (JS
object keys keep first-insertion order). -/
def bump : List (String × Nat) → String → List (String × Nat)
  | [], g => [(g, 1)]
  | (k, n) :: rest, g =>
      if k = g then (k, n + 1) :: rest else (k, n) :: bump rest g

/-- `gestureCount` (source lines 490-493): per-label counts of the history
buffer, in first-occurrence insertion order. -/
def gestureCount (history : List String) : List (String × Nat) :=
  history.foldl bump []

/-- `mostCommon` (source lines 495-497): reduce over `Object.entries` of
the counts, keeping `a` only when its count is strictly greater than the
count of `b` - so on equal counts the later entry `b` wins.  The empty
case cannot occur after a push (JS `reduce` on an empty array throws). -/
def mostCommonGesture (history : List String) : String :=
  match gestureCount history with
  | [] => ""
  | e :: es => (es.foldl (fun a b => if a.2 > b.2 then a else b) e).1

/-- `detectAdvancedGesture(hands)` (source lines 372-509) with the mutable
refs threaded explicitly.  Zero hands short-circuit to the fixed result
without touching any state; otherwise the first hand is smoothed against
slot 0, classified through the decision table, gated by the sensitivity
threshold, pushed into the bounded history, and the debounced majority
label is returned with the clamped per-frame confidence. -/
def detectAdvancedGesture (M : JsMath) (sensitivity smoothing : ℚ)
    (st : TrackState) (hands : List Hand) : GestureResult × TrackState :=
  match hands with
  | [] => ({ gesture := "No hands detected", confidence := 0 }, st)
  | hand :: _ =>
    let sm := smoothLandmarks smoothing st.smoothedLandmarks hand.keypoints 0
    let landmarks := sm.1
    let angles := calculateFingerAngles M landmarks
    let raw := classifyRaw M landmarks
    let gated := applySensitivity sensitivity raw.1 raw.2
    let history := pushHistory st.gestureHistory gated.1
    ({ gesture := mostCommonGesture history
       confidence := max 0 (min 1 gated.2)
       handData := some
         { landmarks := landmarks
           angles := angles
           extendedFingers := extendedFingers landmarks
           handedness := hand.handedness } },
     { gestureHistory := history, smoothedLandmarks := sm.2 })

/-- The smoothing side effect of the `hands.forEach((hand, handIndex) =>
smoothLandmarks(hand.keypoints, handIndex))` loop in `drawAdvancedHands`
(source lines 522-523), starting at hand index i; the canvas drawing has
no effect on tracker state and is omitted. -/
def drawFold (smoothing : ℚ) :
    Nat → List Hand → List (Option (List Landmark)) →
    List (Option (List Landmark))
  | _, [], slots => slots
  | i, hand :: rest, slots =>
      drawFold smoothing (i + 1) rest
        (smoothLandmarks smoothing slots hand.keypoints i).2

/-- `drawAdvancedHands(hands)` modelled for its tracker-state effect: it
re-smooths every detected hand against its own slot. -/
def drawAdvancedHands (smoothing : ℚ) (hands : List Hand)
    (slots : List (Option (List Landmark))) :
    List (Option (List Landmark)) :=
  drawFold smoothing 0 hands slots

/-- One processed frame of `detectHands` (source lines 603-641) after the
detector returned `hands`: with at least one hand the gesture pipeline
runs and its result is emitted, else the fixed no-hands result is emitted
and the classifier is bypassed; either way `drawAdvancedHands` then
re-smooths the detected hands.  FPS bookkeeping and canvas work carry no
tracker state and are omitted. -/
def detectHands (M : JsMath) (sensitivity smoothing : ℚ)
    (st : TrackState) (hands : List Hand) : GestureResult × TrackState :=
  if hands.length > 0 then
    let r := detectAdvancedGesture M sensitivity smoothing st hands
    (r.1, { r.2 with smoothedLandmarks :=
      drawAdvancedHands smoothing hands r.2.smoothedLandmarks })
  else
    ({ gesture := "No hands detected", confidence := 0 },
     { st with smoothedLandmarks :=
       drawAdvancedHands smoothing hands st.smoothedLandmarks })

/-! ## Concrete fixtures used by witnesses and counterexamples -/

/-- Shorthand for a 2D landmark (no z). -/
def pt (x y : ℚ) : Landmark := ⟨x, y, none⟩

/-- A concrete `JsMath` instance (any instance works for the theorems
below; witnesses must pick one). -/
def M0 : JsMath := ⟨fun _ => 0, fun _ => 0, fun _ _ => 0, 0⟩

/-- 21 landmarks with exactly thumb and index extended and
dist(thumbTip, indexTip) = sqrt 200 < 30: thumbMcp = (0,80),
thumbTip = (30,80), indexMcp = (40,100), indexTip = (40,70). -/
def okSignLandmarks : List Landmark :=
  [pt 0 0, pt 0 0, pt 0 80, pt 0 0, pt 30 80,
   pt 40 100, pt 0 0, pt 0 0, pt 40 70, pt 0 0,
   pt 0 0, pt 0 0, pt 0 0, pt 0 0, pt 0 0,
   pt 0 0, pt 0 0, pt 0 0, pt 0 0, pt 0 0, pt 0 0]

/-- 21 landmarks with exactly the index finger extended:
indexMcp = (0,100), indexTip = (0,70). -/
def pointingLandmarks : List Landmark :=
  [pt 0 0, pt 0 0, pt 0 0, pt 0 0, pt 0 0,
   pt 0 100, pt 0 0, pt 0 0, pt 0 70, pt 0 0,
   pt 0 0, pt 0 0, pt 0 0, pt 0 0, pt 0 0,
   pt 0 0, pt 0 0, pt 0 0, pt 0 0, pt 0 0, pt 0 0]

/-- 21 landmarks with exactly the middle finger extended:
middleMcp = (0,100), middleTip = (0,70); the decision table sends this
pattern to the fallback branch with label 1 Finger and confidence 0.6. -/
def middleOnlyLandmarks : List Landmark :=
  [pt 0 0, pt 0 0, pt 0 0, pt 0 0, pt 0 0,
   pt 0 0, pt 0 0, pt 0 0, pt 0 0, pt 0 100,
   pt 0 0, pt 0 0, pt 0 70, pt 0 0, pt 0 0,
   pt 0 0, pt 0 0, pt 0 0, pt 0 0, pt 0 0, pt 0 0]


/-- A detected hand over the pointing fixture. -/
def pointingHand : Hand := ⟨pointingLandmarks, "Right", 0.9⟩

/-- A detected hand over the middle-finger-only fixture. -/
def middleOnlyHand : Hand := ⟨middleOnlyLandmarks, "Right", 0.9⟩

/-- A detected hand over the thumb-and-index fixture. -/
def okSignHand : Hand := ⟨okSignLandmarks, "Right", 0.9⟩

/-- The z-combination rule stated by the amended form of the smoother
z-coordinate claim, written from its words: z is blended by the EMA
formula exactly when the previous and the current z are both present and
both nonzero; otherwise the current z passes through unsmoothed.  It is
compared against the code-derived `emaLandmark` below. -/
def zSmoothSpec (s : ℚ) : Option ℚ → Option ℚ → Option ℚ
  | some p, some c =>
      if p ≠ 0 ∧ c ≠ 0 then some (p * s + c * (1 - s)) else some c
  | _, cz => cz

/-! ## Helper lemmas on the state primitives -/

/-- Both branches of the smoother persist exactly the returned array into
the slot of the processed hand. -/
theorem smoothLandmarks_snd (s : ℚ) (slots : List (Option (List Landmark)))
    (cur : List Landmark) (i : Nat) :
    (smoothLandmarks s slots cur i).2 =
      setSlot slots i (smoothLandmarks s slots cur i).1 := by
  unfold smoothLandmarks
  cases getSlot slots i <;> rfl

theorem getSlot_setSlot_self (slots : List (Option (List Landmark)))
    (i : Nat) (v : List Landmark) : getSlot (setSlot slots i v) i = some v := by
  induction slots generalizing i with
  | nil =>
    induction i with
    | zero => rfl
    | succ n ih => simpa [setSlot, getSlot] using ih
  | cons h t ih =>
    cases i with
    | zero => rfl
    | succ n => simpa [setSlot, getSlot] using ih n

theorem getSlot_setSlot_of_ne (slots : List (Option (List Landmark)))
    (i j : Nat) (v : List Landmark) (hij : i ≠ j) :
    getSlot (setSlot slots i v) j = getSlot slots j := by
  induction slots generalizing i j with
  | nil =>
    induction i generalizing j with
    | zero =>
      cases j with
      | zero => exact absurd rfl hij
      | succ m => rfl
    | succ n ih =>
      cases j with
      | zero => rfl
      | succ m =>
        have : n ≠ m := fun h => hij (by omega)
        simpa [setSlot, getSlot] using ih m this
  | cons h t ih =>
    cases i with
    | zero =>
      cases j with
      | zero => exact absurd rfl hij
      | succ m => rfl
    | succ n =>
      cases j with
      | zero => rfl
      | succ m =>
        have : n ≠ m := fun h => hij (by omega)
        simpa [setSlot, getSlot] using ih n m this

theorem tail_getD (l : List Landmark) (i : Nat) (d : Landmark) :
    l.tail.getD i d = l.getD (i + 1) d := by
  cases l <;> rfl

/-- Element i of the EMA-updated array blends element i of the stored
array with element i of the current array. -/
theorem emaList_getD (s : ℚ) (cur : List Landmark) :
    ∀ (prev : List Landmark) (i : Nat), i < cur.length →
      (emaList s prev cur).getD i default =
        emaLandmark s (prev.getD i default) (cur.getD i default) := by
  induction cur with
  | nil => intro prev i h; exact absurd h (by simp)
  | cons c cs ih =>
    intro prev i h
    cases i with
    | zero => cases prev <;> rfl
    | succ n =>
      have hn : n < cs.length := by simpa using h
      simpa [emaList, tail_getD] using ih prev.tail n hn

/-- The label pushed by the debouncer is always the last entry of the
updated history buffer. -/
theorem pushHistory_getLast (h : List String) (g : String) :
    (pushHistory h g).getLast? = some g := by
  unfold pushHistory
  by_cases hl : (h ++ [g]).length > 5
  · rw [if_pos hl]
    cases h with
    | nil => simp at hl
    | cons a t => simp [List.getLast?_append]
  · rw [if_neg hl]
    simp [List.getLast?_append]

/-- The drawing pass starting at a positive hand index never touches
slot 0. -/
theorem drawFold_getSlot_zero (s : ℚ) (rest : List Hand) :
    ∀ (i : Nat) (slots : List (Option (List Landmark))), 1 ≤ i →
      getSlot (drawFold s i rest slots) 0 = getSlot slots 0 := by
  induction rest with
  | nil => intro i slots _; rfl
  | cons hd tl ih =>
    intro i slots hi
    have h1 : 1 ≤ i + 1 := by omega
    calc getSlot (drawFold s (i + 1) tl
          (smoothLandmarks s slots hd.keypoints i).2) 0
        = getSlot (smoothLandmarks s slots hd.keypoints i).2 0 := ih (i + 1) _ h1
      _ = getSlot slots 0 := by
          rw [smoothLandmarks_snd]
          exact getSlot_setSlot_of_ne _ _ _ _ (by omega)

/-- Unfolding of the gesture pipeline on a nonempty hand list. -/
theorem detectAdvancedGesture_cons (M : JsMath) (sens s : ℚ)
    (st : TrackState) (hand : Hand) (rest : List Hand) :
    detectAdvancedGesture M sens s st (hand :: rest) =
      ({ gesture := mostCommonGesture (pushHistory st.gestureHistory
           (applySensitivity sens
             (classifyRaw M
               (smoothLandmarks s st.smoothedLandmarks hand.keypoints 0).1).1
             (classifyRaw M
               (smoothLandmarks s st.smoothedLandmarks hand.keypoints 0).1).2).1)
         confidence := max 0 (min 1
           (applySensitivity sens
             (classifyRaw M
               (smoothLandmarks s st.smoothedLandmarks hand.keypoints 0).1).1
             (classifyRaw M
               (smoothLandmarks s st.smoothedLandmarks hand.keypoints 0).1).2).2)
         handData := some
           { landmarks :=
               (smoothLandmarks s st.smoothedLandmarks hand.keypoints 0).1
             angles := calculateFingerAngles M
               (smoothLandmarks s st.smoothedLandmarks hand.keypoints 0).1
             extendedFingers := extendedFingers
               (smoothLandmarks s st.smoothedLandmarks hand.keypoints 0).1
             handedness := hand.handedness } },
       { gestureHistory := pushHistory st.gestureHistory
           (applySensitivity sens
             (classifyRaw M
               (smoothLandmarks s st.smoothedLandmarks hand.keypoints 0).1).1
             (classifyRaw M
               (smoothLandmarks s st.smoothedLandmarks hand.keypoints 0).1).2).1
         smoothedLandmarks :=
           (smoothLandmarks s st.smoothedLandmarks hand.keypoints 0).2 }) := rfl

/-- Unfolding of a frame with at least one hand. -/
theorem detectHands_cons (M : JsMath) (sens s : ℚ) (st : TrackState)
    (hand : Hand) (rest : List Hand) :
    detectHands M sens s st (hand :: rest) =
      ((detectAdvancedGesture M sens s st (hand :: rest)).1,
       { gestureHistory :=
           (detectAdvancedGesture M sens s st (hand :: rest)).2.gestureHistory
         smoothedLandmarks := drawAdvancedHands s (hand :: rest)
           (detectAdvancedGesture M sens s st (hand :: rest)).2.smoothedLandmarks }) := by
  unfold detectHands
  rw [if_pos (show (hand :: rest).length > 0 by simp)]

/-- The smoother on a slot that already holds a previous array. -/
theorem smoothLandmarks_of_some (s : ℚ)
    (slots : List (Option (List Landmark))) (cur prev : List Landmark)
    (i : Nat) (h : getSlot slots i = some prev) :
    smoothLandmarks s slots cur i =
      (emaList s prev cur, setSlot slots i (emaList s prev cur)) := by
  unfold smoothLandmarks
  rw [h]

/-- The smoother on a slot with no stored array yet. -/
theorem smoothLandmarks_of_none (s : ℚ)
    (slots : List (Option (List Landmark))) (cur : List Landmark)
    (i : Nat) (h : getSlot slots i = none) :
    smoothLandmarks s slots cur i = (cur, setSlot slots i cur) := by
  unfold smoothLandmarks
  rw [h]

/-! ## C1: debouncer tie-break -/

/-- C1, counterexample: pushing the labels A, B, A, B, C into an empty
history buffer does not yield A - the fold of source lines 495-497 keeps
the right operand on equal counts, so the tied label B wins. -/
theorem mostCommon_tie_not_first :
    mostCommonGesture (List.foldl pushHistory [] ["A", "B", "A", "B", "C"])
        = "B" ∧
      mostCommonGesture (List.foldl pushHistory [] ["A", "B", "A", "B", "C"])
        ≠ "A" := by
  with_unfolding_all decide

/-- C1, amended: when the gesture history is folded into per-label counts
in insertion order, a tie in the maximum occurrence count is broken in
favour of the last-encountered entry of the count table; in particular
pushing A, B, A, B, C (counts A=2, B=2, C=1) into an empty history yields
B, the later of the two tied labels. -/
theorem mostCommon_tie_last_wins (a b c : String) (hab : a ≠ b)
    (hac : a ≠ c) (hbc : b ≠ c) :
    mostCommonGesture (List.foldl pushHistory [] [a, b, a, b, c]) = b := by
  have hfold : List.foldl pushHistory [] [a, b, a, b, c] = [a, b, a, b, c] := rfl
  rw [hfold]
  simp [mostCommonGesture, gestureCount, bump, hab, hac, hbc]

/-- C1, witness for the amended theorem at concrete labels. -/
theorem mostCommon_tie_last_wins_witness :
    ("A" : String) ≠ "B" ∧
      mostCommonGesture
        (List.foldl pushHistory [] ["A", "B", "A", "B", "C"]) = "B" :=
  ⟨by decide, mostCommon_tie_last_wins "A" "B" "C" (by decide) (by decide)
    (by decide)⟩

/-! ## C2: the OK Sign row of the decision table -/

/-- C2: evaluating the decision table at a frame whose pattern is exactly
thumb and index extended with dist(thumbTip, indexTip) = sqrt 200 < 30.
The source classifies it as Pointing with confidence 0.9 for every model
of the JS math primitives, because the Pointing branch (source line 432)
does not test the thumb flag and therefore fires before the OK Sign
branch can be reached; the claimed OK Sign / 0.8 result is unreachable. -/
theorem okSign_input_classified_as_pointing (M : JsMath) :
    classifyRaw M okSignLandmarks = ("Pointing", 0.9) ∧
      (classifyRaw M okSignLandmarks).1 ≠ "OK Sign" := by
  have hT : thumbExtended okSignLandmarks = true := by
    with_unfolding_all decide
  have hI : indexExtended okSignLandmarks = true := by
    with_unfolding_all decide
  have hM : middleExtended okSignLandmarks = false := by
    with_unfolding_all decide
  have hR : ringExtended okSignLandmarks = false := by
    with_unfolding_all decide
  have hP : pinkyExtended okSignLandmarks = false := by
    with_unfolding_all decide
  constructor
  · simp [classifyRaw, extendedCount, extendedFingers, hT, hI, hM, hR, hP]
  · simp [classifyRaw, extendedCount, extendedFingers, hT, hI, hM, hR, hP]

/-! ## C3: the zero-hands frame -/

/-- C3, counterexample: a frame with zero hands leaves the gesture
history untouched - the label No hands detected is never pushed into the
buffer, contrary to the claim. -/
theorem no_hands_not_pushed_counterexample :
    (detectHands M0 0.7 0.8 ⟨["Pointing"], []⟩ []).1 =
        { gesture := "No hands detected", confidence := 0,
          handData := none } ∧
      (detectHands M0 0.7 0.8 ⟨["Pointing"], []⟩ []).2.gestureHistory =
        ["Pointing"] ∧
      "No hands detected" ∉
        (detectHands M0 0.7 0.8 ⟨["Pointing"], []⟩ []).2.gestureHistory := by
  with_unfolding_all decide

/-- C3, amended: when zero hands are detected, the fixed result with
gesture No hands detected and confidence 0 is produced and the tracker
state is left entirely unchanged - in particular nothing is pushed into
the gesture history buffer, so non-detections never take part in the
majority vote. -/
theorem no_hands_fixed_result_state_unchanged (M : JsMath)
    (sens s : ℚ) (st : TrackState) :
    detectHands M sens s st [] =
      ({ gesture := "No hands detected", confidence := 0,
         handData := none }, st) := rfl

/-! ## C4: the sensitivity override and what is actually emitted -/

/-- C4, counterexample: with sensitivity 0.7 and a history holding four
Pointing entries, a frame whose decision-table confidence is 0.6 (below
the threshold) is pushed as Uncertain, yet the emitted gesture is the
debounced majority Pointing, not Uncertain. -/
theorem uncertain_override_counterexample :
    (classifyRaw M0 (smoothLandmarks 0.8
        ([] : List (Option (List Landmark))) middleOnlyLandmarks 0).1).2
        < 0.7 ∧
      (detectAdvancedGesture M0 0.7 0.8
        ⟨["Pointing", "Pointing", "Pointing", "Pointing"], []⟩
        [middleOnlyHand]).1.gesture = "Pointing" ∧
      (detectAdvancedGesture M0 0.7 0.8
        ⟨["Pointing", "Pointing", "Pointing", "Pointing"], []⟩
        [middleOnlyHand]).1.gesture ≠ "Uncertain" := by
  with_unfolding_all decide

/-- C4, amended: when the decision-table confidence of the processed
frame is strictly below the sensitivity threshold, the raw label is
overridden to Uncertain before the history push and the emitted
confidence is 0; the emitted gesture label however is the debounced
majority of the updated history, which need not be Uncertain. -/
theorem low_confidence_emits_zero_and_pushes_uncertain (M : JsMath)
    (sens s : ℚ) (st : TrackState) (hand : Hand) (rest : List Hand)
    (hlow : (classifyRaw M
      (smoothLandmarks s st.smoothedLandmarks hand.keypoints 0).1).2 < sens) :
    (detectAdvancedGesture M sens s st (hand :: rest)).1.confidence = 0 ∧
      (detectAdvancedGesture M sens s st
        (hand :: rest)).2.gestureHistory.getLast? = some "Uncertain" := by
  rw [detectAdvancedGesture_cons]
  constructor
  · simp only [applySensitivity, if_pos hlow]
    norm_num
  · simp only [applySensitivity, if_pos hlow]
    exact pushHistory_getLast _ _

/-- C4, witness for the amended theorem: first frame ever, middle finger
only, sensitivity 0.7. -/
theorem low_confidence_emits_zero_witness :
    (classifyRaw M0 (smoothLandmarks 0.8
        ([] : List (Option (List Landmark))) middleOnlyLandmarks 0).1).2
        < 0.7 ∧
      ((detectAdvancedGesture M0 0.7 0.8 ⟨[], []⟩
          [middleOnlyHand]).1.confidence = 0 ∧
        (detectAdvancedGesture M0 0.7 0.8 ⟨[], []⟩
          [middleOnlyHand]).2.gestureHistory.getLast? = some "Uncertain") :=
  ⟨by with_unfolding_all decide,
   low_confidence_emits_zero_and_pushes_uncertain M0 0.7 0.8 ⟨[], []⟩
     middleOnlyHand [] (by with_unfolding_all decide)⟩

/-! ## C5: the confidence range invariant -/

/-- C5: for every model of the JS math primitives, every frame of
well-formed 21-landmark hands, every tracker state and every sensitivity
and smoothing setting, the confidence returned by the classifier lies in
the closed unit interval. -/
theorem confidence_in_unit_interval (M : JsMath) (sens s : ℚ)
    (st : TrackState) (hands : List Hand)
    (hwf : ∀ hd ∈ hands, hd.keypoints.length = 21) :
    0 ≤ (detectAdvancedGesture M sens s st hands).1.confidence ∧
      (detectAdvancedGesture M sens s st hands).1.confidence ≤ 1 := by
  cases hands with
  | nil => exact ⟨le_refl 0, zero_le_one⟩
  | cons hand rest =>
    rw [detectAdvancedGesture_cons]
    exact ⟨le_max_left _ _, max_le (by norm_num) (min_le_left _ _)⟩

/-- C5, witness at a concrete 21-landmark frame. -/
theorem confidence_in_unit_interval_witness :
    (∀ hd ∈ [okSignHand], hd.keypoints.length = 21) ∧
      (0 ≤ (detectAdvancedGesture M0 0.7 0.8 ⟨[], []⟩
          [okSignHand]).1.confidence ∧
        (detectAdvancedGesture M0 0.7 0.8 ⟨[], []⟩
          [okSignHand]).1.confidence ≤ 1) :=
  ⟨by with_unfolding_all decide,
   confidence_in_unit_interval M0 0.7 0.8 ⟨[], []⟩ [okSignHand]
     (by with_unfolding_all decide)⟩

/-! ## C6: purity of the classifier across invocations -/

/-- C6, counterexample: the same frame input, smoothing state, and
settings produce different returned gesture labels under two different
prior histories, so the value returned by detectAdvancedGesture is not
independent of prior invocations. -/
theorem classifier_depends_on_history_counterexample :
    (detectAdvancedGesture M0 0.7 0.8 ⟨[], []⟩
        [pointingHand]).1.gesture = "Pointing" ∧
      (detectAdvancedGesture M0 0.7 0.8
        ⟨["Open Hand", "Open Hand", "Open Hand"], []⟩
        [pointingHand]).1.gesture = "Open Hand" ∧
      (detectAdvancedGesture M0 0.7 0.8 ⟨[], []⟩
          [pointingHand]).1.gesture ≠
        (detectAdvancedGesture M0 0.7 0.8
          ⟨["Open Hand", "Open Hand", "Open Hand"], []⟩
          [pointingHand]).1.gesture := by
  with_unfolding_all decide

/-- C6, amended: the per-frame confidence and the attached handData are
pure functions of the frame input, smoothing state and settings - they do
not depend on the gesture-history state - while the returned gesture
label additionally depends on the history of prior invocations. -/
theorem confidence_independent_of_history (M : JsMath) (sens s : ℚ)
    (slots : List (Option (List Landmark))) (h1 h2 : List String)
    (hands : List Hand) :
    (detectAdvancedGesture M sens s ⟨h1, slots⟩ hands).1.confidence =
        (detectAdvancedGesture M sens s ⟨h2, slots⟩ hands).1.confidence ∧
      (detectAdvancedGesture M sens s ⟨h1, slots⟩ hands).1.handData =
        (detectAdvancedGesture M sens s ⟨h2, slots⟩ hands).1.handData := by
  cases hands with
  | nil => exact ⟨rfl, rfl⟩
  | cons hand rest => exact ⟨rfl, rfl⟩

/-- The code-derived z-blend agrees with the truthiness rule of
`zSmoothSpec` on every pair of landmarks. -/
theorem emaLandmark_z (s : ℚ) (p c : Landmark) :
    (emaLandmark s p c).z = zSmoothSpec s p.z c.z := by
  rcases p with ⟨px, py, _ | pz⟩ <;> rcases c with ⟨cx, cy, _ | cz⟩
  · rfl
  · rfl
  · simp [emaLandmark, zSmoothSpec, truthy]
  · by_cases hpz : pz = 0 <;> by_cases hcz : cz = 0 <;>
      simp [emaLandmark, zSmoothSpec, truthy, hpz, hcz]

/-! ## C7: the smoother contract -/

/-- C7: the smoother persists exactly what it returns into the processed
slot; on the first observation for a slot it returns the input unchanged;
on a subsequent observation every x and y coordinate of the returned
array blends the stored value with the current one as
prev*s + current*(1-s). -/
theorem smoothLandmarks_contract (s : ℚ)
    (slots : List (Option (List Landmark))) (cur : List Landmark)
    (idx : Nat) :
    (smoothLandmarks s slots cur idx).2 =
        setSlot slots idx (smoothLandmarks s slots cur idx).1 ∧
      (getSlot slots idx = none → (smoothLandmarks s slots cur idx).1 = cur) ∧
      (∀ prev, getSlot slots idx = some prev → ∀ i, i < cur.length →
        ((smoothLandmarks s slots cur idx).1.getD i default).x =
            (prev.getD i default).x * s + (cur.getD i default).x * (1 - s) ∧
          ((smoothLandmarks s slots cur idx).1.getD i default).y =
            (prev.getD i default).y * s + (cur.getD i default).y * (1 - s)) := by
  refine ⟨smoothLandmarks_snd s slots cur idx, ?_, ?_⟩
  · intro h
    rw [smoothLandmarks_of_none s slots cur idx h]
  · intro prev h i hi
    rw [smoothLandmarks_of_some s slots cur prev idx h]
    constructor
    · show ((emaList s prev cur).getD i default).x = _
      rw [emaList_getD s cur prev i hi]
      rfl
    · show ((emaList s prev cur).getD i default).y = _
      rw [emaList_getD s cur prev i hi]
      rfl

/-- C7, witness: a subsequent observation on slot 0 blends both
coordinates with factor 0.8. -/
theorem smoothLandmarks_contract_witness :
    getSlot [some [pt 1 2]] 0 = some [pt 1 2] ∧
      (0 : Nat) < ([pt 3 4] : List Landmark).length ∧
      ((((smoothLandmarks 0.8 [some [pt 1 2]] [pt 3 4] 0).1.getD 0
            default).x =
          (([pt 1 2] : List Landmark).getD 0 default).x * 0.8 +
            (([pt 3 4] : List Landmark).getD 0 default).x * (1 - 0.8)) ∧
        (((smoothLandmarks 0.8 [some [pt 1 2]] [pt 3 4] 0).1.getD 0
            default).y =
          (([pt 1 2] : List Landmark).getD 0 default).y * 0.8 +
            (([pt 3 4] : List Landmark).getD 0 default).y * (1 - 0.8))) :=
  ⟨rfl, by decide,
   (smoothLandmarks_contract 0.8 [some [pt 1 2]] [pt 3 4] 0).2.2
     [pt 1 2] rfl 0 (by decide)⟩

/-! ## C8: z-coordinate smoothing and JS truthiness -/

/-- C8, counterexample: previous z = 0 and current z = 5 are both
present, yet the code passes the current z through unsmoothed (JS
truthiness treats 0 as absent), instead of the claimed EMA blend
0*0.8 + 5*(1-0.8) = 1. -/
theorem z_zero_not_smoothed_counterexample :
    (((smoothLandmarks 0.8 [some [⟨0, 0, some 0⟩]] [⟨0, 0, some 5⟩]
          0).1.getD 0 default).z = some 5) ∧
      (((smoothLandmarks 0.8 [some [⟨0, 0, some 0⟩]] [⟨0, 0, some 5⟩]
          0).1.getD 0 default).z ≠ some (0 * 0.8 + 5 * (1 - 0.8))) := by
  with_unfolding_all decide

/-- C8, amended: on a subsequent observation, the z-coordinate is blended
by the EMA formula exactly when the previous and current z are both
present and both nonzero; otherwise the current z passes through. -/
theorem z_smoothing_truthiness_rule (s : ℚ)
    (slots : List (Option (List Landmark))) (cur prev : List Landmark)
    (idx i : Nat) (h : getSlot slots idx = some prev)
    (hi : i < cur.length) :
    ((smoothLandmarks s slots cur idx).1.getD i default).z =
      zSmoothSpec s (prev.getD i default).z (cur.getD i default).z := by
  rw [smoothLandmarks_of_some s slots cur prev idx h]
  show ((emaList s prev cur).getD i default).z = _
  rw [emaList_getD s cur prev i hi]
  exact emaLandmark_z s _ _

/-- C8, witness for the amended rule: both z present and nonzero, blended
with factor one half. -/
theorem z_smoothing_truthiness_rule_witness :
    getSlot [some [⟨0, 0, some 2⟩]] 0 = some [⟨0, 0, some 2⟩] ∧
      (0 : Nat) < ([(⟨0, 0, some 4⟩ : Landmark)] : List Landmark).length ∧
      ((smoothLandmarks 0.5 [some [⟨0, 0, some 2⟩]]
          [⟨0, 0, some 4⟩] 0).1.getD 0 default).z =
        zSmoothSpec 0.5
          (([(⟨0, 0, some 2⟩ : Landmark)] : List Landmark).getD 0 default).z
          (([(⟨0, 0, some 4⟩ : Landmark)] : List Landmark).getD 0 default).z :=
  ⟨rfl, by decide,
   z_smoothing_truthiness_rule 0.5 [some [⟨0, 0, some 2⟩]]
     [⟨0, 0, some 4⟩] [⟨0, 0, some 2⟩] 0 0 rfl (by decide)⟩

/-! ## C9: the same frame smooths slot 0 twice -/

/-- C9: over one processed frame with at least one detected hand, slot 0
of the smoothing state is advanced twice against the same raw keypoints -
once inside the gesture pipeline and once again by the skeleton-drawing
pass - so the persisted state is the EMA update applied twice. -/
theorem frame_smoothing_applied_twice (M : JsMath) (sens s : ℚ)
    (st : TrackState) (hand : Hand) (rest : List Hand)
    (p : List Landmark) (hp : getSlot st.smoothedLandmarks 0 = some p) :
    getSlot ((detectHands M sens s st
        (hand :: rest)).2.smoothedLandmarks) 0 =
      some (emaList s (emaList s p hand.keypoints) hand.keypoints) := by
  rw [detectHands_cons]
  show getSlot (drawAdvancedHands s (hand :: rest)
    (detectAdvancedGesture M sens s st
      (hand :: rest)).2.smoothedLandmarks) 0 = _
  have hD : (detectAdvancedGesture M sens s st
      (hand :: rest)).2.smoothedLandmarks =
      setSlot st.smoothedLandmarks 0 (emaList s p hand.keypoints) := by
    rw [detectAdvancedGesture_cons]
    show (smoothLandmarks s st.smoothedLandmarks hand.keypoints 0).2 = _
    rw [smoothLandmarks_of_some s st.smoothedLandmarks hand.keypoints p 0 hp]
  rw [hD]
  show getSlot (drawFold s 1 rest
    (smoothLandmarks s
      (setSlot st.smoothedLandmarks 0 (emaList s p hand.keypoints))
      hand.keypoints 0).2) 0 = _
  rw [drawFold_getSlot_zero s rest 1 _ (le_refl 1)]
  rw [smoothLandmarks_of_some s _ hand.keypoints (emaList s p hand.keypoints)
    0 (getSlot_setSlot_self st.smoothedLandmarks 0 _)]
  exact getSlot_setSlot_self _ _ _

/-- C9, witness: a one-hand frame on a slot that already stores a
previous array. -/
theorem frame_smoothing_applied_twice_witness :
    getSlot (TrackState.mk [] [some [pt 1 2]]).smoothedLandmarks 0 =
        some [pt 1 2] ∧
      getSlot ((detectHands M0 0.7 0.8 (TrackState.mk [] [some [pt 1 2]])
          [Hand.mk [pt 3 4] "Right" 1]).2.smoothedLandmarks) 0 =
        some (emaList 0.8 (emaList 0.8 [pt 1 2]
          (Hand.mk [pt 3 4] "Right" 1).keypoints)
          (Hand.mk [pt 3 4] "Right" 1).keypoints) :=
  ⟨rfl, frame_smoothing_applied_twice M0 0.7 0.8
    (TrackState.mk [] [some [pt 1 2]]) (Hand.mk [pt 3 4] "Right" 1) []
    [pt 1 2] rfl⟩

/-! ## C10: the raw label is never the Unknown placeholder -/

/-- C10: for every model of the JS math primitives and every 21-landmark
frame, the raw decision-table label is never the initial placeholder
Unknown: the only branch that could keep it - the OK Sign branch with
distance at least 30 - is unreachable, since its guard implies the guard
of the earlier Pointing branch. -/
theorem raw_label_never_unknown (M : JsMath) (landmarks : List Landmark)
    (hlen : landmarks.length = 21) :
    (classifyRaw M landmarks).1 ≠ "Unknown" := by
  cases hT : thumbExtended landmarks <;>
    cases hI : indexExtended landmarks <;>
    cases hM : middleExtended landmarks <;>
    cases hR : ringExtended landmarks <;>
    cases hP : pinkyExtended landmarks <;>
    simp [classifyRaw, extendedCount, extendedFingers, hT, hI, hM, hR,
      hP] <;>
    decide

/-- C10, witness at a concrete 21-landmark frame. -/
theorem raw_label_never_unknown_witness :
    okSignLandmarks.length = 21 ∧
      (classifyRaw M0 okSignLandmarks).1 ≠ "Unknown" :=
  ⟨by decide, raw_label_never_unknown M0 okSignLandmarks (by decide)⟩
